import Mathlib

/-!
Shallow embedding of the bluECS symbology-compiler entry points:
the style factory `createStyle` and the SY (symbol placement) primitive
interpreter, translated from the TypeScript source.  The Style Assembler
`build` and the symbol registry `symbols` are external imports of the
translated files, so both are passed as explicit parameters here.
-/

namespace BluEcs

/-- A JSON-like field value of a vector source descriptor. -/
inductive JVal where
  | str : String → JVal
  | num : ℚ → JVal
  | bool : Bool → JVal
deriving DecidableEq

/-- The display mode, a TS string union "DAY" | "DUSK" | "NIGHT". -/
inductive Mode where
  | DAY
  | DUSK
  | NIGHT
deriving DecidableEq

/-- `mode.toLowerCase()` restricted to the three mode strings. -/
def Mode.toLowerCase : Mode → String
  | .DAY => "day"
  | .DUSK => "dusk"
  | .NIGHT => "night"

/-- A deferred attribute reference (the `Reference` type of ./parser as used
by SY): it carries the referenced attribute name. -/
structure Reference where
  name : String
deriving DecidableEq

/-- The TS union `number | Reference` of the SY rotation parameter.  In the
source the parameter has default value `0`, i.e. a call without a rotation
argument is a call with `Rot.num 0`. -/
inductive Rot where
  | num : ℚ → Rot
  | ref : Reference → Rot
deriving DecidableEq

/-- The `DataDrivenPropertyValueSpecification<number>` that SY builds from
its rotation parameter: a numeric literal, or the expression
`["get", name]` for a deferred attribute lookup. -/
inductive RotateSpec where
  | lit : ℚ → RotateSpec
  | get : String → RotateSpec
deriving DecidableEq

/-- A symbol-registry entry.  The registry also carries pivot and bbox data,
but SY reads only the offset. -/
structure SymbolData where
  offset : ℚ × ℚ
deriving DecidableEq

/-- The layout object of the fragment SY builds.  `iconRotate = none`
models omission of the "icon-rotate" key from the layout object. -/
structure SymbolLayout where
  symbolPlacement : String
  iconAllowOverlap : Bool
  iconIgnorePlacement : Bool
  iconImage : String
  iconOffset : ℚ × ℚ
  iconRotate : Option RotateSpec
deriving DecidableEq

/-- A `Pick<SymbolLayerSpecification, "type" | "layout">` fragment. -/
structure SymbolFragment where
  type : String
  layout : SymbolLayout
deriving DecidableEq

/-- The observable outcome of one SY call: the fragments it returns plus the
`console.warn` diagnostics it emits, made explicit. -/
structure SYResult where
  warnings : List String
  fragments : List SymbolFragment
deriving DecidableEq

/-- The SY (Showpoint) interpreter, translated from the source.  The symbol
registry `symbols` (an external read-only import in the source) is passed
explicitly. -/
def SY (symbols : String → Option SymbolData) (symbol : Reference)
    (rot : Rot) : SYResult :=
  let rotate : RotateSpec :=
    match rot with
    | .num n => .lit n
    | .ref r => .get r.name
  match symbols symbol.name with
  | none =>
      { warnings := ["Missing symbol: " ++ symbol.name]
        fragments := [] }
  | some data =>
      { warnings := []
        fragments :=
          [{ type := "symbol"
             layout :=
               { symbolPlacement := "point"
                 iconAllowOverlap := true
                 iconIgnorePlacement := true
                 iconImage := symbol.name
                 iconOffset := data.offset
                 iconRotate :=
                   if rotate = RotateSpec.lit 0 then none else some rotate } }] }

/-- JS `Array.prototype.join(sep)`. -/
def arrayJoin (sep : String) : List String → String
  | [] => ""
  | x :: xs => xs.foldl (fun acc y => acc ++ sep ++ y) x

/-- The JS truthiness test `sprite ? [sprite] : []`: an absent value and the
empty string are both falsy. -/
def truthyParts : Option String → List String
  | none => []
  | some s => if s = "" then [] else [s]

/-- The LayerConfig record handed to the Style Assembler. -/
structure LayerConfig where
  mode : Mode
  source : String
  shallowDepth : ℚ
  safetyDepth : ℚ
  deepDepth : ℚ
deriving DecidableEq

/-- The StyleOptions parameter of `createStyle`.  `none` in an optional
field models an omitted property; the source descriptor is modelled by its
field lookup function. -/
structure StyleOptions where
  source : String → Option JVal
  name : Option String
  mode : Option Mode
  sprite : Option String

/-- The StyleSpecification document built by `createStyle`; `layers` has the
type produced by the external Style Assembler.  `sources` maps a source id
to the field-lookup function of its entry. -/
structure StyleDocument (α : Type) where
  version : Nat
  name : String
  sprite : String
  glyphs : String
  sources : String → Option (String → Option JVal)
  layers : List α

/-- The style factory (default export), translated from the source.  The
Style Assembler `build` (an external import in the source) is passed
explicitly.  The sources entry is the object `\x7bpromoteId: "LNAM",
...source\x7d`: the spread comes second, so a field of `source` wins over
the compiler-supplied `promoteId`. -/
def createStyle {α : Type} (build : LayerConfig → List α)
    (opts : StyleOptions) : StyleDocument α :=
  let name := opts.name.getD "S52 Style"
  let mode := opts.mode.getD Mode.DAY
  let config : LayerConfig :=
    { mode := mode
      source := "enc"
      shallowDepth := 3
      safetyDepth := 6
      deepDepth := 9 }
  let layers := build config
  { version := 8
    name := name
    sprite := arrayJoin "/" (truthyParts opts.sprite ++ [mode.toLowerCase])
    glyphs := "https://fonts.openmaptiles.org/{fontstack}/{range}.pbf"
    sources := fun id =>
      if id = config.source then
        some (fun k =>
          match opts.source k with
          | some v => some v
          | none => if k = "promoteId" then some (JVal.str "LNAM") else none)
      else none
    layers := layers }

/-- Field `k` of the source entry registered under `id` in an output
document (`none` when `id` has no entry or the entry lacks the field). -/
def sourcesAt {α : Type} (d : StyleDocument α) (id k : String) : Option JVal :=
  match d.sources id with
  | none => none
  | some e => e k

/-- The spec words for the sources entry: the input source with the
promoteId field set to "LNAM" (overwriting any existing value). -/
def specPromoted (source : String → Option JVal) : String → Option JVal :=
  fun k => if k = "promoteId" then some (JVal.str "LNAM") else source k

/-! Concrete helpers used by witnesses and counterexamples. -/

/-- A registry entry with a nonzero offset. -/
def dW : SymbolData := { offset := (3, -5) }

/-- A one-symbol registry: only "BOYLAT12" is registered. -/
def regW : String → Option SymbolData :=
  fun n => if n = "BOYLAT12" then some dW else none

/-- A trivial Style Assembler for closed instances. -/
def buildNil : LayerConfig → List Unit := fun _ => []

/-- A concrete vector source descriptor with a single `type` field. -/
def srcW : String → Option JVal :=
  fun k => if k = "type" then some (JVal.str "vector") else none

/-- Concrete options: sprite base URL given, mode and name omitted. -/
def optsW : StyleOptions :=
  { source := srcW, name := none, mode := none, sprite := some "https://example.test/sprites" }

/-- Concrete options: sprite omitted, NIGHT mode. -/
def optsN : StyleOptions :=
  { source := srcW, name := none, mode := some Mode.NIGHT, sprite := none }

/-- Concrete options whose sprite is the (falsy) empty string. -/
def optsE : StyleOptions :=
  { source := srcW, name := none, mode := none, sprite := some "" }

/-- A source descriptor that already carries its own promoteId field. -/
def srcP : String → Option JVal :=
  fun k => if k = "promoteId" then some (JVal.str "XYZ") else none

/-- Concrete options built around `srcP`. -/
def optsP : StyleOptions :=
  { source := srcP, name := none, mode := none, sprite := none }

/-- C1: a symbol name with no registry entry makes SY return the empty
fragment list with only a non-fatal warning (SY is a total function, so it
cannot abort the compile), while any registered symbol in the same compile
still produces output. -/
theorem sy_missing_symbol_graceful (reg : String → Option SymbolData)
    (symbol : Reference) (rot : Rot) (h : reg symbol.name = none) :
    (SY reg symbol rot).fragments = [] ∧
    (SY reg symbol rot).warnings = ["Missing symbol: " ++ symbol.name] ∧
    ∀ (s2 : Reference) (d : SymbolData), reg s2.name = some d →
      (SY reg s2 rot).fragments ≠ [] := by
  refine ⟨by simp [SY, h], by simp [SY, h], ?_⟩
  intro s2 d h2
  simp [SY, h2]

theorem sy_missing_symbol_graceful_witness :
    regW "NOSUCH" = none ∧
    (SY regW ⟨"NOSUCH"⟩ (Rot.num 0)).fragments = [] ∧
    (SY regW ⟨"NOSUCH"⟩ (Rot.num 0)).warnings = ["Missing symbol: " ++ "NOSUCH"] ∧
    (SY regW ⟨"BOYLAT12"⟩ (Rot.num 0)).fragments ≠ [] :=
  ⟨by decide,
   (sy_missing_symbol_graceful regW ⟨"NOSUCH"⟩ (Rot.num 0) (by decide)).1,
   (sy_missing_symbol_graceful regW ⟨"NOSUCH"⟩ (Rot.num 0) (by decide)).2.1,
   (sy_missing_symbol_graceful regW ⟨"NOSUCH"⟩ (Rot.num 0) (by decide)).2.2
     ⟨"BOYLAT12"⟩ dW (by decide)⟩

/-- C2 counterexample: for a source descriptor that already carries its own
promoteId field, the sources entry is NOT the input source with promoteId
set to "LNAM" — the spread in the source object literal lets the input
field win. -/
theorem createStyle_promoteId_counterexample :
    srcP "promoteId" = some (JVal.str "XYZ") ∧
    ¬ (sourcesAt (createStyle buildNil optsP) "enc" "promoteId"
        = specPromoted srcP "promoteId") := by decide

/-- C2 (amended): when the input source descriptor does not itself define a
promoteId field, the sources entry equals the input source with promoteId
set to "LNAM"; a source-supplied promoteId overrides the compiler value. -/
theorem createStyle_promoteId_default {α : Type} (build : LayerConfig → List α)
    (opts : StyleOptions) (h : opts.source "promoteId" = none) (k : String) :
    sourcesAt (createStyle build opts) "enc" k = specPromoted opts.source k := by
  by_cases hk : k = "promoteId"
  · subst hk
    simp [createStyle, sourcesAt, specPromoted, h]
  · cases hv : opts.source k with
    | none => simp [createStyle, sourcesAt, specPromoted, hv, hk]
    | some v => simp [createStyle, sourcesAt, specPromoted, hv, hk]

theorem createStyle_promoteId_default_witness :
    optsW.source "promoteId" = none ∧
    sourcesAt (createStyle buildNil optsW) "enc" "promoteId"
      = specPromoted optsW.source "promoteId" :=
  ⟨by decide, createStyle_promoteId_default buildNil optsW (by decide) "promoteId"⟩

/-- C3: for a registered symbol, a SY call with no rotation argument (the
source default, rotation 0) omits icon-rotate from the layout, while an
explicit literal rotation 45 appears verbatim. -/
theorem sy_rotation_default_and_literal (reg : String → Option SymbolData)
    (symbol : Reference) (d : SymbolData) (h : reg symbol.name = some d) :
    (SY reg symbol (Rot.num 0)).fragments.map (fun f => f.layout.iconRotate)
      = [none] ∧
    (SY reg symbol (Rot.num 45)).fragments.map (fun f => f.layout.iconRotate)
      = [some (RotateSpec.lit 45)] := by
  constructor <;> simp [SY, h]

theorem sy_rotation_default_and_literal_witness :
    regW "BOYLAT12" = some dW ∧
    (SY regW ⟨"BOYLAT12"⟩ (Rot.num 0)).fragments.map (fun f => f.layout.iconRotate)
      = [none] ∧
    (SY regW ⟨"BOYLAT12"⟩ (Rot.num 45)).fragments.map (fun f => f.layout.iconRotate)
      = [some (RotateSpec.lit 45)] :=
  ⟨by decide,
   (sy_rotation_default_and_literal regW ⟨"BOYLAT12"⟩ dW (by decide)).1,
   (sy_rotation_default_and_literal regW ⟨"BOYLAT12"⟩ dW (by decide)).2⟩

/-- C4 counterexample: at the provided (but falsy) empty-string sprite base
URL, the sprite field is just the lowercased mode, not "" ++ "/" ++ mode as
the claim demands for every provided base URL. -/
theorem createStyle_sprite_counterexample :
    optsE.sprite = some "" ∧
    ¬ ((createStyle buildNil optsE).sprite
        = "" ++ "/" ++ (optsE.mode.getD Mode.DAY).toLowerCase) := by decide

/-- C4 (amended): for every provided non-empty sprite base URL the sprite
field is the base URL, "/", then the lowercased mode; when the sprite
option is omitted — or is the empty string, which JS truthiness treats the
same way — the sprite field is exactly the lowercased mode. -/
theorem createStyle_sprite_path {α : Type} (build : LayerConfig → List α)
    (opts : StyleOptions) (s : String)
    (hs : opts.sprite = some s) (hne : s ≠ "") :
    (createStyle build opts).sprite
      = s ++ "/" ++ (opts.mode.getD Mode.DAY).toLowerCase ∧
    (∀ o2 : StyleOptions, o2.sprite = none →
      (createStyle build o2).sprite = (o2.mode.getD Mode.DAY).toLowerCase) ∧
    (∀ o3 : StyleOptions, o3.sprite = some "" →
      (createStyle build o3).sprite = (o3.mode.getD Mode.DAY).toLowerCase) := by
  refine ⟨?_, ?_, ?_⟩
  · simp [createStyle, truthyParts, arrayJoin, hs, hne]
  · intro o2 h2
    simp [createStyle, truthyParts, arrayJoin, h2]
  · intro o3 h3
    simp [createStyle, truthyParts, arrayJoin, h3]

theorem createStyle_sprite_path_witness :
    optsW.sprite = some "https://example.test/sprites" ∧
    (createStyle buildNil optsW).sprite
      = "https://example.test/sprites" ++ "/" ++ (optsW.mode.getD Mode.DAY).toLowerCase ∧
    (createStyle buildNil optsN).sprite = (optsN.mode.getD Mode.DAY).toLowerCase ∧
    (createStyle buildNil optsE).sprite = (optsE.mode.getD Mode.DAY).toLowerCase :=
  ⟨rfl,
   (createStyle_sprite_path buildNil optsW "https://example.test/sprites" rfl
     (by decide)).1,
   (createStyle_sprite_path buildNil optsW "https://example.test/sprites" rfl
     (by decide)).2.1 optsN rfl,
   (createStyle_sprite_path buildNil optsW "https://example.test/sprites" rfl
     (by decide)).2.2 optsE rfl⟩

/-- C5: for a fixed Style Assembler and symbol registry, createStyle and SY
are deterministic — equal arguments give identical style documents
(including the ordered layer list) and identical SY results. -/
theorem createStyle_deterministic {α : Type} (build : LayerConfig → List α)
    (o1 o2 : StyleOptions) (h : o1 = o2)
    (reg : String → Option SymbolData) (s1 s2 : Reference) (r1 r2 : Rot)
    (hs : s1 = s2) (hr : r1 = r2) :
    (createStyle build o1 = createStyle build o2 ∧
      (createStyle build o1).layers = (createStyle build o2).layers) ∧
    SY reg s1 r1 = SY reg s2 r2 := by
  subst h
  subst hs
  subst hr
  exact ⟨⟨rfl, rfl⟩, rfl⟩

theorem createStyle_deterministic_witness :
    (createStyle buildNil optsW = createStyle buildNil optsW ∧
      (createStyle buildNil optsW).layers = (createStyle buildNil optsW).layers) ∧
    SY regW ⟨"BOYLAT12"⟩ (Rot.num 0) = SY regW ⟨"BOYLAT12"⟩ (Rot.num 0) :=
  createStyle_deterministic buildNil optsW optsW rfl regW
    ⟨"BOYLAT12"⟩ ⟨"BOYLAT12"⟩ (Rot.num 0) (Rot.num 0) rfl rfl

/-- C6: for a registered symbol name, SY returns exactly one fragment, of
type "symbol", whose icon-image is the symbol name and whose icon-offset is
the offset stored in the registry entry. -/
theorem sy_registered_fragment (reg : String → Option SymbolData)
    (symbol : Reference) (d : SymbolData) (rot : Rot)
    (h : reg symbol.name = some d) :
    ∃ f, (SY reg symbol rot).fragments = [f] ∧ f.type = "symbol" ∧
      f.layout.iconImage = symbol.name ∧ f.layout.iconOffset = d.offset := by
  simp only [SY, h]
  exact ⟨_, rfl, rfl, rfl, rfl⟩

theorem sy_registered_fragment_witness :
    regW "BOYLAT12" = some dW ∧
    ∃ f, (SY regW ⟨"BOYLAT12"⟩ (Rot.num 7)).fragments = [f] ∧ f.type = "symbol" ∧
      f.layout.iconImage = "BOYLAT12" ∧ f.layout.iconOffset = dW.offset :=
  ⟨by decide, sy_registered_fragment regW ⟨"BOYLAT12"⟩ dW (Rot.num 7) (by decide)⟩

/-- C7: the LayerConfig handed to the Style Assembler has exactly the fixed
defaults — source id "enc" and depths 3, 6, 9 metres (shallow ≤ safety ≤
deep) — independent of every caller option (only the mode field comes from
the caller). -/
theorem createStyle_fixed_config {α : Type} (build : LayerConfig → List α)
    (opts : StyleOptions) :
    (createStyle build opts).layers =
      build { mode := opts.mode.getD Mode.DAY, source := "enc",
              shallowDepth := 3, safetyDepth := 6, deepDepth := 9 } ∧
    (3 : ℚ) ≤ 6 ∧ (6 : ℚ) ≤ 9 :=
  ⟨rfl, by norm_num, by norm_num⟩

/-- C8: omitting the mode option behaves exactly like passing mode "DAY":
the whole output document is identical, and the sprite path ends in the
segment "day". -/
theorem createStyle_mode_default {α : Type} (build : LayerConfig → List α)
    (opts : StyleOptions) (h : opts.mode = none) :
    createStyle build opts = createStyle build { opts with mode := some Mode.DAY } ∧
    (createStyle build opts).sprite
      = arrayJoin "/" (truthyParts opts.sprite ++ ["day"]) := by
  constructor
  · simp [createStyle, h]
  · simp [createStyle, h, Mode.toLowerCase]

theorem createStyle_mode_default_witness :
    createStyle buildNil optsW = createStyle buildNil { optsW with mode := some Mode.DAY } ∧
    (createStyle buildNil optsW).sprite
      = arrayJoin "/" (truthyParts optsW.sprite ++ ["day"]) :=
  createStyle_mode_default buildNil optsW rfl

/-- C9: every field of the input source descriptor appears unchanged in the
output sources entry under "enc"; no field is dropped or altered. -/
theorem createStyle_source_passthrough {α : Type} (build : LayerConfig → List α)
    (opts : StyleOptions) (k : String) (v : JVal) (h : opts.source k = some v) :
    sourcesAt (createStyle build opts) "enc" k = some v := by
  simp [createStyle, sourcesAt, h]

theorem createStyle_source_passthrough_witness :
    srcW "type" = some (JVal.str "vector") ∧
    sourcesAt (createStyle buildNil optsW) "enc" "type" = some (JVal.str "vector") :=
  ⟨by decide,
   createStyle_source_passthrough buildNil optsW "type" (JVal.str "vector") (by decide)⟩

/-- C10: every SY result has at most one fragment, and a non-empty result
is a single fragment whose layout has symbol-placement "point",
icon-allow-overlap true and icon-ignore-placement true, for every registry,
symbol name and rotation. -/
theorem sy_fragment_invariants (reg : String → Option SymbolData)
    (symbol : Reference) (rot : Rot) :
    (SY reg symbol rot).fragments.length ≤ 1 ∧
    ((SY reg symbol rot).fragments = [] ∨
      ∃ f, (SY reg symbol rot).fragments = [f] ∧
        f.layout.symbolPlacement = "point" ∧
        f.layout.iconAllowOverlap = true ∧
        f.layout.iconIgnorePlacement = true) := by
  cases hx : reg symbol.name with
  | none => simp [SY, hx]
  | some d =>
    refine ⟨by simp [SY, hx], Or.inr ?_⟩
    simp only [SY, hx]
    exact ⟨_, rfl, rfl, rfl, rfl⟩

end BluEcs
